import Mathlib

/-!
Verification of the AppDynamics health-violation monitor.

The definitions below are a shallow embedding of the monitor program
(the reconciliation loop in the repository source): the violation fetch
with its response-shape normalization, the Jira ticket gateway, the
per-tick reconciliation algorithm over the tracked-violation state map,
the multi-tick runner, and the scheduler timing model.  External network
responses are supplied as explicit oracle parameters; every outbound
network request and gateway invocation performed by the code is recorded
in an explicit event trace.
-/

namespace Monitor

/-- Model of a JavaScript/JSON value as manipulated by the monitor when it
normalizes violation-feed responses. -/
inductive JVal where
  | jnull
  | jbool (b : Bool)
  | jnum (n : Int)
  | jstr (s : String)
  | jarr (xs : List JVal)
  | jobj (fields : List (String × JVal))

/-- Truthiness of a JavaScript value, as used by the conditions in the
response-shape detection of getHealthViolations. -/
def jtruthy : JVal → Bool
  | .jnull => false
  | .jbool b => b
  | .jnum n => n != 0
  | .jstr s => s != ""
  | .jarr _ => true
  | .jobj _ => true

/-- Property access on a JavaScript object: first field with the given key. -/
def getField : List (String × JVal) → String → Option JVal
  | [], _ => none
  | f :: rest, k => if f.1 = k then some f.2 else getField rest k

/-- Property access combined with a truthiness test, modelling the pattern
"if (obj.field)" used by the shape detection: yields the field exactly when
it is present and truthy. -/
def getFieldT (fs : List (String × JVal)) (k : String) : Option JVal :=
  match getField fs k with
  | some v => if jtruthy v then some v else none
  | none => none

/-- Model of String.prototype.includes: true when the pattern occurs in the
string (splitting on a nonempty pattern yields more than one part exactly
when the pattern occurs). -/
def strIncludes (s pat : String) : Bool :=
  (s.splitOn pat).length != 1

/-- Property access on an arbitrary value: fields exist only on objects. -/
def pField (p : JVal) (k : String) : Option JVal :=
  match p with
  | .jobj fs => getField fs k
  | _ => none

/-- Filter predicate applied to entries of a generic problems array in
getHealthViolations: type is HEALTH_RULE_VIOLATION, or triggeredEntityType
is HEALTH_RULE, or the lower-cased name contains "health". -/
def isHealthProblem (p : JVal) : Bool :=
  (match pField p "type" with
   | some (.jstr s) => s = "HEALTH_RULE_VIOLATION"
   | _ => false) ||
  (match pField p "triggeredEntityType" with
   | some (.jstr s) => s = "HEALTH_RULE"
   | _ => false) ||
  (match pField p "name" with
   | some (.jstr s) => strIncludes s.toLower "health"
   | _ => false)

/-- Shape normalization applied by getHealthViolations to a non-array object
response: the wrapped field healthRuleViolations, else violations, else
data (each taken when present and truthy), else a problems array filtered
to health-rule entries; otherwise the object itself is kept. -/
def normalizeObj (fs : List (String × JVal)) : JVal :=
  match getFieldT fs "healthRuleViolations" with
  | some h => h
  | none =>
    match getFieldT fs "violations" with
    | some h => h
    | none =>
      match getFieldT fs "data" with
      | some h => h
      | none =>
        match getField fs "problems" with
        | some (.jarr ps) => .jarr (ps.filter isHealthProblem)
        | _ => .jobj fs

/-- Response-shape normalization of getHealthViolations: a direct array (or
any non-object value) passes through unchanged; a non-array object goes
through the wrapped-field detection of normalizeObj. -/
def normalizeViolations : JVal → JVal
  | .jobj fs => normalizeObj fs
  | v => v

/-- Model of Object.keys(v).length as used by the hasViolations test
(objects expose their fields, strings their character indices, everything
else has no keys). -/
def jsKeysCount : JVal → Nat
  | .jobj fs => fs.length
  | .jstr s => s.length
  | _ => 0

/-- Emptiness test of getHealthViolations on the normalized value: a
nonempty array, or a truthy non-array value with at least one key. -/
def hasViolations (v : JVal) : Bool :=
  match v with
  | .jarr xs => xs.length > 0
  | v => jtruthy v && jsKeysCount v > 0

/-- Final flattening of getHealthViolations: an array is used as is, any
other value is wrapped in a one-element array. -/
def jsToArray : JVal → List JVal
  | .jarr xs => xs
  | v => [v]

/-- Environment of one application during the fetch: its identity plus the
responses of the primary (healthrule-violations) and secondary (problems)
endpoints.  An error carries the optional HTTP status of the response. -/
structure AppEnv where
  appId : Nat
  name : String
  primary : Except (Option Nat) JVal
  secondary : Except (Option Nat) JVal

/-- Raw per-application fetch of getHealthViolations: the primary endpoint
is tried first; exactly when it fails with status 404 the secondary
endpoint is consulted; any other primary error propagates. -/
def fetchAppRaw (a : AppEnv) : Except (Option Nat) JVal :=
  match a.primary with
  | .ok d => .ok d
  | .error s => if s = some 404 then a.secondary else .error s

/-- Per-application entry of the list returned by getHealthViolations. -/
structure AppViolations where
  applicationId : Nat
  applicationName : String
  violations : List JVal

/-- Per-application body of the loop of getHealthViolations: fetch with
fallback, normalize the shape, and keep the application only when the
normalized value is nonempty; any fetch error (404 is skipped silently,
others are logged) leaves the contribution empty. -/
def fetchAppViolations (a : AppEnv) : Option AppViolations :=
  match fetchAppRaw a with
  | .error _ => none
  | .ok d =>
    let v := normalizeViolations d
    if hasViolations v then some ⟨a.appId, a.name, jsToArray v⟩ else none

/-- Model of getHealthViolations over the whole application list: each
application contributes its normalized violations or nothing. -/
def getHealthViolations : List AppEnv → List AppViolations
  | [] => []
  | a :: rest =>
    match fetchAppViolations a with
    | some c => c :: getHealthViolations rest
    | none => getHealthViolations rest

/-- Model of JavaScript String(v) for the values the monitor stringifies
(incident identifiers and statuses). -/
def jsToString : JVal → String
  | .jstr s => s
  | .jnum n => toString n
  | .jbool b => if b then "true" else "false"
  | .jnull => "null"
  | .jarr _ => ""
  | .jobj _ => "[object Object]"

/-- Field access with a null default, for reading id and incidentStatus off
a fetched violation value. -/
def fieldOrNull (j : JVal) (k : String) : JVal :=
  match j with
  | .jobj fs => (getField fs k).getD .jnull
  | _ => .jnull

/-- Violation as consumed by the reconciliation tick: the stringified
incident identifier (String(violation.id)) and the observed lifecycle
status (violation.incidentStatus). -/
structure Violation where
  id : String
  incidentStatus : String
deriving DecidableEq

/-- Projection of a fetched JSON violation to the fields the tick uses. -/
def toViolation (j : JVal) : Violation :=
  ⟨jsToString (fieldOrNull j "id"), jsToString (fieldOrNull j "incidentStatus")⟩

/-- One tracked record of the violation state: the Jira ticket key, the
last-observed status, and the lastChecked timestamp. -/
structure TrackedViolation where
  jiraKey : String
  status : String
  lastChecked : Nat
deriving DecidableEq

/-- The violation state object: a mapping from incident identifier to its
tracked record, kept in insertion order. -/
abbrev StateMap := List (String × TrackedViolation)

/-- Read of violationState at an incident identifier. -/
def lookupState : StateMap → String → Option TrackedViolation
  | [], _ => none
  | e :: rest, id => if e.1 = id then some e.2 else lookupState rest id

/-- Write of violationState at an incident identifier: the first entry with
that key is replaced in place; a missing key is appended. -/
def setState : StateMap → String → TrackedViolation → StateMap
  | [], id, tv => [(id, tv)]
  | e :: rest, id, tv => if e.1 = id then (id, tv) :: rest else e :: setState rest id tv

/-- Jira configuration relevant to the gateway functions: the API token
(the empty string models an unconfigured JIRA_TOKEN). -/
structure JiraConfig where
  jiraToken : String

/-- One transition offered by the Jira transitions endpoint: its id, its
name, and the name of its target state. -/
structure JTransition where
  transId : String
  name : String
  toName : String

/-- Every network request and gateway invocation the monitor performs,
recorded in the trace: createCall and closeCall mark the tick invoking
createJiraTicket and updateJiraTicketStatus, the jira events mark actual
outbound HTTP requests of the gateway functions. -/
inductive Event where
  | createCall (incidentId : String)
  | closeCall (jiraKey : String)
  | jiraCreateIssue (incidentId : String)
  | jiraGetTransitions (jiraKey : String)
  | jiraPostTransition (jiraKey : String)
deriving DecidableEq

/-- Environment of one reconciliation tick: the Jira configuration, the
network responses of the Jira issue-creation endpoint (keyed by incident
identifier), of the transitions listing and of the transition post (keyed
by ticket key), and the current clock value Date.now(). -/
structure TickEnv where
  cfg : JiraConfig
  createResp : String → Except Unit String
  transitionsResp : String → Except Unit (List JTransition)
  postTransitionResp : String → Except Unit Unit
  now : Nat

/-- Model of createJiraTicket: with an unconfigured token it returns null
immediately and performs no request; otherwise it posts the new issue and
returns the created key, or null when the request fails. -/
def createJiraTicket (env : TickEnv) (v : Violation) : Option String × List Event :=
  if env.cfg.jiraToken = "" then (none, [])
  else
    match env.createResp v.id with
    | .ok key => (some key, [.jiraCreateIssue v.id])
    | .error _ => (none, [.jiraCreateIssue v.id])

/-- Model of updateJiraTicketStatus: with an unconfigured token it returns
false immediately and performs no request; otherwise it lists the legal
transitions, picks one whose name or target-state name lower-cases to
"done", posts it, and reports whether everything succeeded. -/
def updateJiraTicketStatus (env : TickEnv) (jiraKey : String) : Bool × List Event :=
  if env.cfg.jiraToken = "" then (false, [])
  else
    match env.transitionsResp jiraKey with
    | .error _ => (false, [.jiraGetTransitions jiraKey])
    | .ok ts =>
      match ts.find? (fun t => t.name.toLower == "done" || t.toName.toLower == "done") with
      | none => (false, [.jiraGetTransitions jiraKey])
      | some _ =>
        match env.postTransitionResp jiraKey with
        | .ok _ => (true, [.jiraGetTransitions jiraKey, .jiraPostTransition jiraKey])
        | .error _ => (false, [.jiraGetTransitions jiraKey, .jiraPostTransition jiraKey])

/-- Body of the first loop of checkAndProcessViolations for one fetched
violation: an unknown incident triggers ticket creation and is recorded
only on success; a known incident transitions OPEN to CANCELLED through
the gateway (ignoring the gateway result), or has its status overwritten
and lastChecked refreshed on any other status change, or is left entirely
untouched when the status is unchanged. -/
def processViolation (env : TickEnv) (st : StateMap) (v : Violation) : StateMap × List Event :=
  match lookupState st v.id with
  | none =>
    match createJiraTicket env v with
    | (some key, evs) =>
      (setState st v.id ⟨key, v.incidentStatus, env.now⟩, Event.createCall v.id :: evs)
    | (none, evs) => (st, Event.createCall v.id :: evs)
  | some tr =>
    if tr.status = "OPEN" ∧ v.incidentStatus = "CANCELLED" then
      (setState st v.id { tr with status := "CANCELLED" },
       Event.closeCall tr.jiraKey :: (updateJiraTicketStatus env tr.jiraKey).2)
    else if tr.status ≠ v.incidentStatus then
      (setState st v.id { tr with status := v.incidentStatus, lastChecked := env.now }, [])
    else (st, [])

/-- First pass of checkAndProcessViolations: the fetched violations are
processed one after the other in feed order. -/
def processFetchedViolations (env : TickEnv) (st : StateMap) : List Violation → StateMap × List Event
  | [] => (st, [])
  | v :: vs =>
    let r1 := processViolation env st v
    let r2 := processFetchedViolations env r1.1 vs
    (r2.1, r1.2 ++ r2.2)

/-- Body of the second loop of checkAndProcessViolations for one state
entry: an OPEN record whose identifier is absent from the current-fetch
set is closed through the gateway (result ignored) and marked CANCELLED;
every other record is left untouched. -/
def closeAbsentEntry (env : TickEnv) (cur : List String) (e : String × TrackedViolation) :
    (String × TrackedViolation) × List Event :=
  if cur.contains e.1 = false ∧ e.2.status = "OPEN" then
    ((e.1, { e.2 with status := "CANCELLED" }),
     Event.closeCall e.2.jiraKey :: (updateJiraTicketStatus env e.2.jiraKey).2)
  else (e, [])

/-- Second pass of checkAndProcessViolations: every entry of the state is
visited and closed when its identifier disappeared from the feed. -/
def closeMissingViolations (env : TickEnv) (cur : List String) : StateMap → StateMap × List Event
  | [] => ([], [])
  | e :: rest =>
    let r1 := closeAbsentEntry env cur e
    let r2 := closeMissingViolations env cur rest
    (r1.1 :: r2.1, r1.2 ++ r2.2)

/-- Flattening of the fetched per-application violation lists into feed
order, as traversed by the nested loops of checkAndProcessViolations. -/
def flattenFeed : List (String × List Violation) → List Violation
  | [] => []
  | a :: rest => a.2 ++ flattenFeed rest

/-- Model of one reconciliation tick (checkAndProcessViolations): first the
fetch/update pass over all fetched violations, then the disappearance pass
over the resulting state using the fully-merged set of fetched incident
identifiers. -/
def checkAndProcessViolations (env : TickEnv) (st : StateMap)
    (feed : List (String × List Violation)) : StateMap × List Event :=
  let flat := flattenFeed feed
  let cur := flat.map (fun v => v.id)
  let r1 := processFetchedViolations env st flat
  let r2 := closeMissingViolations env cur r1.1
  (r2.1, r1.2 ++ r2.2)

/-- Input of one scheduled tick: its environment and the fetched feed. -/
structure TickInput where
  env : TickEnv
  feed : List (String × List Violation)

/-- Sequential execution of a list of reconciliation ticks against the
in-memory state, concatenating their event traces. -/
def runTicks (st : StateMap) : List TickInput → StateMap × List Event
  | [] => (st, [])
  | t :: ts =>
    let r1 := checkAndProcessViolations t.env st t.feed
    let r2 := runTicks r1.1 ts
    (r2.1, r1.2 ++ r2.2)

/-- Conversion of the fetch result to the per-application feed consumed by
the tick. -/
def feedOfApps (apps : List AppViolations) : List (String × List Violation) :=
  apps.map (fun a => (a.applicationName, a.violations.map toViolation))

/-- Composition of the fetch and the tick, as performed by one execution of
checkAndProcessViolations in the source. -/
def fetchAndProcess (env : TickEnv) (st : StateMap) (apps : List AppEnv) : StateMap × List Event :=
  checkAndProcessViolations env st (feedOfApps (getHealthViolations apps))

/-- Condition under which createJiraTicket returns null for an incident:
the token is unconfigured or the creation request fails. -/
def createFails (env : TickEnv) (id : String) : Prop :=
  env.cfg.jiraToken = "" ∨ env.createResp id = .error ()

/-- Number of createJiraTicket invocations recorded for an incident. -/
def countCreateCalls (id : String) : List Event → Nat
  | [] => 0
  | Event.createCall id' :: rest => (if id' = id then 1 else 0) + countCreateCalls id rest
  | _ :: rest => countCreateCalls id rest

/-- Number of issue-creation network requests recorded for an incident. -/
def countCreateIssues (id : String) : List Event → Nat
  | [] => 0
  | Event.jiraCreateIssue id' :: rest => (if id' = id then 1 else 0) + countCreateIssues id rest
  | _ :: rest => countCreateIssues id rest

/-- Number of occurrences of an incident identifier in a violation list. -/
def countVio (id : String) : List Violation → Nat
  | [] => 0
  | v :: rest => (if v.id = id then 1 else 0) + countVio id rest

/-- Total number of observations of an incident across a list of ticks. -/
def totalOccurrences (id : String) : List TickInput → Nat
  | [] => 0
  | t :: ts => countVio id (flattenFeed t.feed) + totalOccurrences id ts

/-- Start time of the k-th reconciliation tick under the scheduler of
startMonitoring: the initial tick (k = 0) runs at time 0 and is awaited,
and only upon its completion after dur 0 is the setInterval timer
installed, which then fires every intervalMs on a fixed-rate schedule, so
tick k for k at least 1 starts at dur 0 + intervalMs * k.  The firing
times of the setInterval ticks do not depend on how long any of those
ticks runs, because setInterval does not await its asynchronous
callback. -/
def tickStartTime (intervalMs : Nat) (dur : Nat → Nat) (k : Nat) : Nat :=
  if k = 0 then 0 else dur 0 + intervalMs * k

/-- Completion time of the k-th tick given the duration of each tick. -/
def tickEndTime (intervalMs : Nat) (dur : Nat → Nat) (k : Nat) : Nat :=
  tickStartTime intervalMs dur k + dur k

/-- Two ticks overlap when the later one starts before the earlier one has
completed. -/
def ticksOverlap (intervalMs : Nat) (dur : Nat → Nat) (j k : Nat) : Prop :=
  j < k ∧ tickStartTime intervalMs dur k < tickEndTime intervalMs dur j

/-- Success test for a creation-endpoint response. -/
def exOk : Except Unit String → Bool
  | .ok _ => true
  | .error _ => false

/-- Invariant carried through the reconciliation steps for one incident
identifier: either the incident has no state entry and no issue-creation
request has been made for it, or it has an entry and at most one
issue-creation request has ever been made. -/
def C1Inv (id : String) (st : StateMap) (c : Nat) : Prop :=
  (lookupState st id = none ∧ c = 0) ∨ ((lookupState st id).isSome = true ∧ c ≤ 1)

/-- Concrete tick environment whose gateway calls all fail, at clock 5. -/
def envC2 : TickEnv :=
  ⟨⟨"token"⟩, fun _ => .error (), fun _ => .error (), fun _ => .error (), 5⟩

/-- Concrete state holding one CANCELLED record for incident 100. -/
def stC2 : StateMap := [("100", ⟨"T-1", "CANCELLED", 0⟩)]

/-- Concrete feed re-observing incident 100 with status OPEN. -/
def feedC2 : List (String × List Violation) := [("App", [⟨"100", "OPEN"⟩])]

/-- Concrete tick list whose single feed never mentions incident 100. -/
def ticksC2 : List TickInput := [⟨envC2, [("App", [⟨"101", "OPEN"⟩])]⟩]

/-- Concrete tick environment that always succeeds in creating tickets. -/
def envC1 : TickEnv :=
  ⟨⟨"token"⟩, fun _ => .ok "T-9", fun _ => .error (), fun _ => .error (), 1⟩

/-- Concrete two-tick schedule observing incident 300 on both ticks. -/
def ticksC1 : List TickInput :=
  [⟨envC1, [("App", [⟨"300", "OPEN"⟩])]⟩, ⟨envC1, [("App", [⟨"300", "OPEN"⟩])]⟩]

/-- Concrete tick environment whose creation endpoint fails, at clock 9. -/
def envC4 : TickEnv :=
  ⟨⟨"token"⟩, fun _ => .error (), fun _ => .error (), fun _ => .error (), 9⟩

/-- Concrete feed observing the brand-new incident 200. -/
def feedC4 : List (String × List Violation) := [("App", [⟨"200", "OPEN"⟩])]

/-- Concrete tick environment with a working gateway, at clock 11. -/
def envC5 : TickEnv :=
  ⟨⟨"token"⟩, fun _ => .ok "T-5", fun _ => .ok [⟨"31", "Done", "Done"⟩], fun _ => .ok (), 11⟩

/-- Concrete state holding one OPEN record for incident 100 with ticket T-1. -/
def stC5 : StateMap := [("100", ⟨"T-1", "OPEN", 0⟩)]

/-- Concrete tick environment whose close transition fails, at clock 13. -/
def envC6 : TickEnv :=
  ⟨⟨"token"⟩, fun _ => .ok "T-6", fun _ => .error (), fun _ => .error (), 13⟩

/-- Concrete state holding one OPEN record for incident 100. -/
def stC6 : StateMap := [("100", ⟨"T-1", "OPEN", 2⟩)]

/-- Concrete re-observation of incident 100 with status CANCELLED. -/
def vC6 : Violation := ⟨"100", "CANCELLED"⟩

/-- Concrete tick environment at clock 5 for the unchanged re-observation. -/
def envC7 : TickEnv :=
  ⟨⟨"token"⟩, fun _ => .ok "T-7", fun _ => .ok [], fun _ => .ok (), 5⟩

/-- Concrete state holding one OPEN record for incident 100, last checked 0. -/
def stC7 : StateMap := [("100", ⟨"T-1", "OPEN", 0⟩)]

/-- Concrete re-observation of incident 100 with unchanged status OPEN. -/
def vC7 : Violation := ⟨"100", "OPEN"⟩

/-- Concrete application whose primary endpoint reports 404 and whose
secondary endpoint returns an empty array. -/
def appC8 : AppEnv := ⟨1, "app-a", .error (some 404), .ok (.jarr [])⟩

/-- Concrete problems array holding one health-rule entry and one other. -/
def psC8 : List JVal :=
  [JVal.jobj [("type", JVal.jstr "HEALTH_RULE_VIOLATION")], JVal.jnum 3]

/-- Concrete problems-shaped response object. -/
def fsC8 : List (String × JVal) := [("problems", JVal.jarr psC8)]

/-- Concrete healthy application returning one OPEN violation. -/
def goodC9 : AppEnv :=
  ⟨1, "good", .ok (.jarr [.jobj [("id", .jnum 100), ("incidentStatus", .jstr "OPEN")]]),
   .error none⟩

/-- Concrete failing application: both endpoints fail without a status. -/
def badC9 : AppEnv := ⟨2, "bad", .error none, .error none⟩

/-- Concrete tick environment with an unconfigured Jira token. -/
def envC10 : TickEnv :=
  ⟨⟨""⟩, fun _ => .ok "T-1", fun _ => .error (), fun _ => .error (), 3⟩

/-- Concrete two-tick schedule under the unconfigured token, observing
incident 200 once per tick. -/
def ticksC10 : List TickInput :=
  [⟨envC10, [("App", [⟨"200", "OPEN"⟩])]⟩, ⟨envC10, [("App", [⟨"200", "OPEN"⟩])]⟩]

/-- Concrete observation of incident 200 with status OPEN. -/
def vC10 : Violation := ⟨"200", "OPEN"⟩

theorem lookupState_setState_self (st : StateMap) (id : String) (tv : TrackedViolation) :
    lookupState (setState st id tv) id = some tv := by
  induction st with
  | nil => simp [setState, lookupState]
  | cons e rest ih =>
    by_cases h : e.1 = id
    · simp [setState, h, lookupState]
    · simp [setState, h, lookupState, ih]

theorem lookupState_setState_ne (st : StateMap) (k id : String) (tv : TrackedViolation)
    (h : id ≠ k) : lookupState (setState st k tv) id = lookupState st id := by
  induction st with
  | nil => simp [setState, lookupState, Ne.symm h]
  | cons e rest ih =>
    by_cases he : e.1 = k
    · simp [setState, he, lookupState, Ne.symm h]
    · simp [setState, he, lookupState, ih]

theorem pv_eq_create_ok (env : TickEnv) (st : StateMap) (v : Violation) (key : String)
    (evs : List Event) (h1 : lookupState st v.id = none)
    (h2 : createJiraTicket env v = (some key, evs)) :
    processViolation env st v =
      (setState st v.id ⟨key, v.incidentStatus, env.now⟩, Event.createCall v.id :: evs) := by
  unfold processViolation
  rw [h1, h2]

theorem pv_eq_create_fail (env : TickEnv) (st : StateMap) (v : Violation)
    (evs : List Event) (h1 : lookupState st v.id = none)
    (h2 : createJiraTicket env v = (none, evs)) :
    processViolation env st v = (st, Event.createCall v.id :: evs) := by
  unfold processViolation
  rw [h1, h2]

theorem pv_eq_close (env : TickEnv) (st : StateMap) (v : Violation) (tr : TrackedViolation)
    (h1 : lookupState st v.id = some tr) (h2 : tr.status = "OPEN")
    (h3 : v.incidentStatus = "CANCELLED") :
    processViolation env st v =
      (setState st v.id { tr with status := "CANCELLED" },
       Event.closeCall tr.jiraKey :: (updateJiraTicketStatus env tr.jiraKey).2) := by
  simp only [processViolation, h1]
  rw [if_pos ⟨h2, h3⟩]

theorem pv_eq_overwrite (env : TickEnv) (st : StateMap) (v : Violation) (tr : TrackedViolation)
    (h1 : lookupState st v.id = some tr)
    (h2 : ¬(tr.status = "OPEN" ∧ v.incidentStatus = "CANCELLED"))
    (h3 : tr.status ≠ v.incidentStatus) :
    processViolation env st v =
      (setState st v.id { tr with status := v.incidentStatus, lastChecked := env.now }, []) := by
  simp only [processViolation, h1]
  rw [if_neg h2, if_pos h3]

theorem pv_eq_same (env : TickEnv) (st : StateMap) (v : Violation) (tr : TrackedViolation)
    (h1 : lookupState st v.id = some tr) (h2 : tr.status = v.incidentStatus) :
    processViolation env st v = (st, []) := by
  simp only [processViolation, h1]
  rw [if_neg ?hc1, if_neg ?hc2]
  case hc1 =>
    rintro ⟨ha, hb⟩
    rw [h2, hb] at ha
    exact absurd ha (by decide)
  case hc2 => exact not_ne_iff.mpr h2

theorem createJiraTicket_snd (env : TickEnv) (v : Violation) :
    (createJiraTicket env v).2 = [] ∨
    (createJiraTicket env v).2 = [Event.jiraCreateIssue v.id] := by
  unfold createJiraTicket
  split
  · exact Or.inl rfl
  · cases env.createResp v.id <;> exact Or.inr rfl

theorem updateJira_events (env : TickEnv) (k : String) :
    ∀ e ∈ (updateJiraTicketStatus env k).2,
      e = Event.jiraGetTransitions k ∨ e = Event.jiraPostTransition k := by
  unfold updateJiraTicketStatus
  split
  · simp
  · cases env.transitionsResp k with
    | error err => simp
    | ok ts =>
      simp only []
      cases ts.find? (fun t => t.name.toLower == "done" || t.toName.toLower == "done") with
      | none => simp
      | some t =>
        cases env.postTransitionResp k <;> simp

theorem createJiraTicket_fst_none (env : TickEnv) (v : Violation)
    (hf : createFails env v.id) : (createJiraTicket env v).1 = none := by
  unfold createJiraTicket
  rcases hf with h | h
  · rw [if_pos h]
  · split
    · rfl
    · rw [h]

theorem pv_lookup_ne (env : TickEnv) (st : StateMap) (v : Violation) (id : String)
    (h : v.id ≠ id) :
    lookupState (processViolation env st v).1 id = lookupState st id := by
  cases hl : lookupState st v.id with
  | none =>
    cases hc : createJiraTicket env v with
    | mk res evs =>
      cases res with
      | some key =>
        rw [pv_eq_create_ok env st v key evs hl hc]
        exact lookupState_setState_ne _ _ _ _ (Ne.symm h)
      | none => rw [pv_eq_create_fail env st v evs hl hc]
  | some tr =>
    by_cases hb1 : tr.status = "OPEN" ∧ v.incidentStatus = "CANCELLED"
    · rw [pv_eq_close env st v tr hl hb1.1 hb1.2]
      exact lookupState_setState_ne _ _ _ _ (Ne.symm h)
    · by_cases hb2 : tr.status = v.incidentStatus
      · rw [pv_eq_same env st v tr hl hb2]
      · rw [pv_eq_overwrite env st v tr hl hb1 hb2]
        exact lookupState_setState_ne _ _ _ _ (Ne.symm h)

theorem pv_isSome_of_isSome (env : TickEnv) (st : StateMap) (v : Violation) (id : String)
    (h : (lookupState st id).isSome = true) :
    (lookupState (processViolation env st v).1 id).isSome = true := by
  by_cases hv : v.id = id
  · subst hv
    cases hl : lookupState st v.id with
    | none => rw [hl] at h; simp at h
    | some tr =>
      by_cases hb1 : tr.status = "OPEN" ∧ v.incidentStatus = "CANCELLED"
      · rw [pv_eq_close env st v tr hl hb1.1 hb1.2]
        simp [lookupState_setState_self]
      · by_cases hb2 : tr.status = v.incidentStatus
        · rw [pv_eq_same env st v tr hl hb2]; rw [hl]; rfl
        · rw [pv_eq_overwrite env st v tr hl hb1 hb2]
          simp [lookupState_setState_self]
  · rw [pv_lookup_ne env st v id hv]; exact h

theorem pv_state_of_createFails (env : TickEnv) (st : StateMap) (v : Violation)
    (hf : createFails env v.id) (h : lookupState st v.id = none) :
    (processViolation env st v).1 = st := by
  cases hc : createJiraTicket env v with
  | mk res evs =>
    have hres : res = none := by
      have := createJiraTicket_fst_none env v hf
      rw [hc] at this
      exact this
    subst hres
    rw [pv_eq_create_fail env st v evs h hc]

theorem createCall_not_mem_update (env : TickEnv) (k : String) (id : String) :
    Event.createCall id ∉ (updateJiraTicketStatus env k).2 := by
  intro hm
  rcases updateJira_events env k _ hm with h | h <;> simp at h

theorem jiraCreateIssue_not_mem_update (env : TickEnv) (k : String) (id : String) :
    Event.jiraCreateIssue id ∉ (updateJiraTicketStatus env k).2 := by
  intro hm
  rcases updateJira_events env k _ hm with h | h <;> simp at h

theorem pv_createCall_not_mem_of_present (env : TickEnv) (st : StateMap) (v : Violation)
    (tr : TrackedViolation) (id : String) (hl : lookupState st v.id = some tr) :
    Event.createCall id ∉ (processViolation env st v).2 := by
  by_cases hb1 : tr.status = "OPEN" ∧ v.incidentStatus = "CANCELLED"
  · rw [pv_eq_close env st v tr hl hb1.1 hb1.2]
    intro hm
    rcases List.mem_cons.mp hm with h | h
    · simp at h
    · exact createCall_not_mem_update env tr.jiraKey id h
  · by_cases hb2 : tr.status = v.incidentStatus
    · rw [pv_eq_same env st v tr hl hb2]; simp
    · rw [pv_eq_overwrite env st v tr hl hb1 hb2]; simp

theorem pv_createCall_not_mem_ne (env : TickEnv) (st : StateMap) (v : Violation) (id : String)
    (h : v.id ≠ id) : Event.createCall id ∉ (processViolation env st v).2 := by
  cases hl : lookupState st v.id with
  | none =>
    cases hc : createJiraTicket env v with
    | mk res evs =>
      have hevs : evs = [] ∨ evs = [Event.jiraCreateIssue v.id] := by
        have := createJiraTicket_snd env v
        rw [hc] at this
        exact this
      cases res with
      | some key =>
        rw [pv_eq_create_ok env st v key evs hl hc]
        intro hm
        rcases List.mem_cons.mp hm with hh | hh
        · exact h (by injection hh with hh'; exact hh'.symm)
        · rcases hevs with rfl | rfl <;> simp at hh
      | none =>
        rw [pv_eq_create_fail env st v evs hl hc]
        intro hm
        rcases List.mem_cons.mp hm with hh | hh
        · exact h (by injection hh with hh'; exact hh'.symm)
        · rcases hevs with rfl | rfl <;> simp at hh
  | some tr => exact pv_createCall_not_mem_of_present env st v tr id hl

theorem pv_createCall_mem (env : TickEnv) (st : StateMap) (v : Violation)
    (hl : lookupState st v.id = none) :
    Event.createCall v.id ∈ (processViolation env st v).2 := by
  cases hc : createJiraTicket env v with
  | mk res evs =>
    cases res with
    | some key => rw [pv_eq_create_ok env st v key evs hl hc]; exact List.mem_cons_self _ _
    | none => rw [pv_eq_create_fail env st v evs hl hc]; exact List.mem_cons_self _ _

theorem pfv_lookup_ne (env : TickEnv) (st : StateMap) (vs : List Violation) (id : String)
    (h : ∀ v ∈ vs, v.id ≠ id) :
    lookupState (processFetchedViolations env st vs).1 id = lookupState st id := by
  induction vs generalizing st with
  | nil => rfl
  | cons v rest ih =>
    simp only [processFetchedViolations]
    rw [ih _ fun w hw => h w (List.mem_cons_of_mem _ hw)]
    exact pv_lookup_ne env st v id (h v (List.mem_cons_self _ _))

theorem pfv_isSome_of_isSome (env : TickEnv) (st : StateMap) (vs : List Violation) (id : String)
    (h : (lookupState st id).isSome = true) :
    (lookupState (processFetchedViolations env st vs).1 id).isSome = true := by
  induction vs generalizing st with
  | nil => exact h
  | cons v rest ih =>
    simp only [processFetchedViolations]
    exact ih _ (pv_isSome_of_isSome env st v id h)

theorem pfv_createCall_not_mem (env : TickEnv) (st : StateMap) (vs : List Violation) (id : String)
    (h : (lookupState st id).isSome = true) :
    Event.createCall id ∉ (processFetchedViolations env st vs).2 := by
  induction vs generalizing st with
  | nil => simp [processFetchedViolations]
  | cons v rest ih =>
    simp only [processFetchedViolations]
    intro hm
    rcases List.mem_append.mp hm with hm1 | hm1
    · by_cases hv : v.id = id
      · cases hl : lookupState st v.id with
        | none => rw [← hv] at h; rw [hl] at h; simp at h
        | some tr => exact pv_createCall_not_mem_of_present env st v tr id hl hm1
      · exact pv_createCall_not_mem_ne env st v id hv hm1
    · exact ih _ (pv_isSome_of_isSome env st v id h) hm1

theorem pfv_createCall_mem (env : TickEnv) (st : StateMap) (vs : List Violation) (id : String)
    (h : lookupState st id = none) (hm : id ∈ vs.map (fun v => v.id)) :
    Event.createCall id ∈ (processFetchedViolations env st vs).2 := by
  induction vs generalizing st with
  | nil => simp at hm
  | cons v rest ih =>
    simp only [processFetchedViolations]
    by_cases hv : v.id = id
    · subst hv
      exact List.mem_append_left _ (pv_createCall_mem env st v h)
    · rcases List.mem_cons.mp hm with hh | hh
      · exact absurd hh.symm (by simpa using hv)
      · refine List.mem_append_right _ (ih _ ?_ hh)
        rw [pv_lookup_ne env st v id hv]
        exact h

theorem pfv_none_of_createFails (env : TickEnv) (st : StateMap) (vs : List Violation)
    (id : String) (hf : createFails env id) (h : lookupState st id = none) :
    lookupState (processFetchedViolations env st vs).1 id = none := by
  induction vs generalizing st with
  | nil => exact h
  | cons v rest ih =>
    simp only [processFetchedViolations]
    by_cases hv : v.id = id
    · refine ih _ ?_
      rw [pv_state_of_createFails env st v (hv ▸ hf) (hv ▸ h)]
      exact h
    · refine ih _ ?_
      rw [pv_lookup_ne env st v id hv]
      exact h

theorem closeAbsentEntry_fst (env : TickEnv) (cur : List String) (e : String × TrackedViolation) :
    (closeAbsentEntry env cur e).1 =
      (e.1, if cur.contains e.1 = false ∧ e.2.status = "OPEN"
            then { e.2 with status := "CANCELLED" } else e.2) := by
  unfold closeAbsentEntry
  split <;> simp_all

theorem cmv_lookup (env : TickEnv) (cur : List String) (st : StateMap) (id : String) :
    lookupState (closeMissingViolations env cur st).1 id =
      (lookupState st id).map
        (fun tr => if cur.contains id = false ∧ tr.status = "OPEN"
                   then { tr with status := "CANCELLED" } else tr) := by
  induction st with
  | nil => rfl
  | cons e rest ih =>
    simp only [closeMissingViolations, lookupState]
    rw [closeAbsentEntry_fst]
    by_cases he : e.1 = id
    · subst he
      simp [lookupState]
    · simp [he, ih]

theorem cmv_events_shape (env : TickEnv) (cur : List String) (st : StateMap) :
    ∀ ev ∈ (closeMissingViolations env cur st).2,
      (∃ k, ev = Event.closeCall k) ∨ (∃ k, ev = Event.jiraGetTransitions k) ∨
      (∃ k, ev = Event.jiraPostTransition k) := by
  induction st with
  | nil => simp [closeMissingViolations]
  | cons e rest ih =>
    simp only [closeMissingViolations]
    intro ev hm
    rcases List.mem_append.mp hm with hm1 | hm1
    · unfold closeAbsentEntry at hm1
      split at hm1
      · rcases List.mem_cons.mp hm1 with hh | hh
        · exact Or.inl ⟨_, hh⟩
        · rcases updateJira_events env _ _ hh with h' | h'
          · exact Or.inr (Or.inl ⟨_, h'⟩)
          · exact Or.inr (Or.inr ⟨_, h'⟩)
      · simp at hm1
    · exact ih ev hm1

theorem cmv_createCall_not_mem (env : TickEnv) (cur : List String) (st : StateMap) (id : String) :
    Event.createCall id ∉ (closeMissingViolations env cur st).2 := by
  intro hm
  rcases cmv_events_shape env cur st _ hm with ⟨k, h⟩ | ⟨k, h⟩ | ⟨k, h⟩ <;> simp at h

theorem cmv_jiraCreateIssue_not_mem (env : TickEnv) (cur : List String) (st : StateMap)
    (id : String) : Event.jiraCreateIssue id ∉ (closeMissingViolations env cur st).2 := by
  intro hm
  rcases cmv_events_shape env cur st _ hm with ⟨k, h⟩ | ⟨k, h⟩ | ⟨k, h⟩ <;> simp at h

theorem cmv_closeCall_mem (env : TickEnv) (cur : List String) (st : StateMap) (id : String)
    (tr : TrackedViolation) (h : lookupState st id = some tr)
    (hc : cur.contains id = false) (ho : tr.status = "OPEN") :
    Event.closeCall tr.jiraKey ∈ (closeMissingViolations env cur st).2 := by
  induction st with
  | nil => simp [lookupState] at h
  | cons e rest ih =>
    simp only [closeMissingViolations]
    by_cases he : e.1 = id
    · rw [lookupState, if_pos he] at h
      injection h with h
      refine List.mem_append_left _ ?_
      unfold closeAbsentEntry
      rw [if_pos ⟨by rw [he]; exact hc, by rw [h]; exact ho⟩]
      rw [h]
      exact List.mem_cons_self _ _
    · rw [lookupState, if_neg he] at h
      exact List.mem_append_right _ (ih h)

theorem countCreateIssues_append (id : String) (l1 l2 : List Event) :
    countCreateIssues id (l1 ++ l2) = countCreateIssues id l1 + countCreateIssues id l2 := by
  induction l1 with
  | nil => simp [countCreateIssues]
  | cons e rest ih => cases e <;> simp [countCreateIssues, ih, Nat.add_assoc]

theorem countCreateIssues_not_mem (id : String) (l : List Event)
    (h : Event.jiraCreateIssue id ∉ l) : countCreateIssues id l = 0 := by
  induction l with
  | nil => rfl
  | cons e rest ih =>
    have h2 : Event.jiraCreateIssue id ∉ rest := fun hm => h (List.mem_cons_of_mem _ hm)
    have h1 : e ≠ Event.jiraCreateIssue id := fun he => h (he ▸ List.mem_cons_self _ _)
    cases e with
    | jiraCreateIssue i =>
      have hne : ¬ i = id := fun hh => h1 (by rw [hh])
      simp [countCreateIssues, hne, ih h2]
    | createCall i => simp [countCreateIssues, ih h2]
    | closeCall k => simp [countCreateIssues, ih h2]
    | jiraGetTransitions k => simp [countCreateIssues, ih h2]
    | jiraPostTransition k => simp [countCreateIssues, ih h2]

theorem countCreateCalls_append (id : String) (l1 l2 : List Event) :
    countCreateCalls id (l1 ++ l2) = countCreateCalls id l1 + countCreateCalls id l2 := by
  induction l1 with
  | nil => simp [countCreateCalls]
  | cons e rest ih => cases e <;> simp [countCreateCalls, ih, Nat.add_assoc]

theorem countCreateCalls_not_mem (id : String) (l : List Event)
    (h : Event.createCall id ∉ l) : countCreateCalls id l = 0 := by
  induction l with
  | nil => rfl
  | cons e rest ih =>
    have h2 : Event.createCall id ∉ rest := fun hm => h (List.mem_cons_of_mem _ hm)
    have h1 : e ≠ Event.createCall id := fun he => h (he ▸ List.mem_cons_self _ _)
    cases e with
    | createCall i =>
      have hne : ¬ i = id := fun hh => h1 (by rw [hh])
      simp [countCreateCalls, hne, ih h2]
    | jiraCreateIssue i => simp [countCreateCalls, ih h2]
    | closeCall k => simp [countCreateCalls, ih h2]
    | jiraGetTransitions k => simp [countCreateCalls, ih h2]
    | jiraPostTransition k => simp [countCreateCalls, ih h2]

theorem pv_jiraCreateIssue_not_mem_of_present (env : TickEnv) (st : StateMap) (v : Violation)
    (tr : TrackedViolation) (id : String) (hl : lookupState st v.id = some tr) :
    Event.jiraCreateIssue id ∉ (processViolation env st v).2 := by
  by_cases hb1 : tr.status = "OPEN" ∧ v.incidentStatus = "CANCELLED"
  · rw [pv_eq_close env st v tr hl hb1.1 hb1.2]
    intro hm
    rcases List.mem_cons.mp hm with h | h
    · simp at h
    · exact jiraCreateIssue_not_mem_update env tr.jiraKey id h
  · by_cases hb2 : tr.status = v.incidentStatus
    · rw [pv_eq_same env st v tr hl hb2]; simp
    · rw [pv_eq_overwrite env st v tr hl hb1 hb2]; simp

theorem pv_jiraCreateIssue_not_mem_ne (env : TickEnv) (st : StateMap) (v : Violation)
    (id : String) (h : v.id ≠ id) :
    Event.jiraCreateIssue id ∉ (processViolation env st v).2 := by
  cases hl : lookupState st v.id with
  | none =>
    cases hc : createJiraTicket env v with
    | mk res evs =>
      have hevs : evs = [] ∨ evs = [Event.jiraCreateIssue v.id] := by
        have := createJiraTicket_snd env v
        rw [hc] at this
        exact this
      have hnm : Event.jiraCreateIssue id ∉ Event.createCall v.id :: evs := by
        intro hm
        rcases List.mem_cons.mp hm with hh | hh
        · simp at hh
        · rcases hevs with rfl | rfl
          · simp at hh
          · rcases List.mem_cons.mp hh with hh' | hh'
            · exact h (by injection hh' with hh''; exact hh''.symm)
            · simp at hh'
      cases res with
      | some key => rw [pv_eq_create_ok env st v key evs hl hc]; exact hnm
      | none => rw [pv_eq_create_fail env st v evs hl hc]; exact hnm
  | some tr => exact pv_jiraCreateIssue_not_mem_of_present env st v tr id hl

theorem createJiraTicket_token_empty (env : TickEnv) (v : Violation)
    (h : env.cfg.jiraToken = "") : createJiraTicket env v = (none, []) := by
  unfold createJiraTicket
  rw [if_pos h]

theorem updateJiraTicketStatus_token_empty (env : TickEnv) (k : String)
    (h : env.cfg.jiraToken = "") : updateJiraTicketStatus env k = (false, []) := by
  unfold updateJiraTicketStatus
  rw [if_pos h]

theorem pv_inv_step (env : TickEnv) (st : StateMap) (v : Violation) (id : String) (c : Nat)
    (hok : exOk (env.createResp id) = true) (hinv : C1Inv id st c) :
    C1Inv id (processViolation env st v).1
      (c + countCreateIssues id (processViolation env st v).2) := by
  by_cases hv : v.id = id
  · subst hv
    cases hl : lookupState st v.id with
    | some tr =>
      have hz : countCreateIssues v.id (processViolation env st v).2 = 0 :=
        countCreateIssues_not_mem _ _ (pv_jiraCreateIssue_not_mem_of_present env st v tr v.id hl)
      rw [hz]
      rcases hinv with ⟨hnone, _⟩ | ⟨hsome, hc⟩
      · rw [hl] at hnone; exact absurd hnone (by simp)
      · exact Or.inr ⟨pv_isSome_of_isSome env st v v.id hsome, by omega⟩
    | none =>
      have hc0 : c = 0 := by
        rcases hinv with ⟨_, h0⟩ | ⟨hsome, _⟩
        · exact h0
        · rw [hl] at hsome; simp at hsome
      subst hc0
      by_cases htok : env.cfg.jiraToken = ""
      · rw [pv_eq_create_fail env st v [] hl (createJiraTicket_token_empty env v htok)]
        exact Or.inl ⟨hl, by simp [countCreateIssues]⟩
      · cases hresp : env.createResp v.id with
        | error e => rw [hresp] at hok; simp [exOk] at hok
        | ok key =>
          have hc : createJiraTicket env v = (some key, [Event.jiraCreateIssue v.id]) := by
            unfold createJiraTicket
            rw [if_neg htok, hresp]
          rw [pv_eq_create_ok env st v key _ hl hc]
          refine Or.inr ⟨by simp [lookupState_setState_self], ?_⟩
          simp [countCreateIssues]
  · have hz : countCreateIssues id (processViolation env st v).2 = 0 :=
      countCreateIssues_not_mem _ _ (pv_jiraCreateIssue_not_mem_ne env st v id hv)
    rw [hz]
    rcases hinv with ⟨hnone, h0⟩ | ⟨hsome, hc⟩
    · exact Or.inl ⟨by rw [pv_lookup_ne env st v id hv]; exact hnone, by omega⟩
    · exact Or.inr ⟨pv_isSome_of_isSome env st v id hsome, hc⟩

theorem pfv_inv (env : TickEnv) (st : StateMap) (vs : List Violation) (id : String) (c : Nat)
    (hok : exOk (env.createResp id) = true) (hinv : C1Inv id st c) :
    C1Inv id (processFetchedViolations env st vs).1
      (c + countCreateIssues id (processFetchedViolations env st vs).2) := by
  induction vs generalizing st c with
  | nil => simpa [processFetchedViolations, countCreateIssues] using hinv
  | cons v rest ih =>
    simp only [processFetchedViolations]
    rw [countCreateIssues_append, ← Nat.add_assoc]
    exact ih _ _ (pv_inv_step env st v id c hok hinv)

theorem tick_inv (env : TickEnv) (st : StateMap) (feed : List (String × List Violation))
    (id : String) (c : Nat) (hok : exOk (env.createResp id) = true) (hinv : C1Inv id st c) :
    C1Inv id (checkAndProcessViolations env st feed).1
      (c + countCreateIssues id (checkAndProcessViolations env st feed).2) := by
  unfold checkAndProcessViolations
  simp only []
  rw [countCreateIssues_append]
  have hcz : countCreateIssues id
      (closeMissingViolations env ((flattenFeed feed).map (fun v => v.id))
        (processFetchedViolations env st (flattenFeed feed)).1).2 = 0 :=
    countCreateIssues_not_mem _ _ (cmv_jiraCreateIssue_not_mem _ _ _ _)
  rw [hcz]
  have h1 := pfv_inv env st (flattenFeed feed) id c hok hinv
  rcases h1 with ⟨hnone, h0⟩ | ⟨hsome, hc⟩
  · refine Or.inl ⟨?_, by omega⟩
    rw [cmv_lookup, hnone]
    rfl
  · refine Or.inr ⟨?_, by omega⟩
    rw [cmv_lookup]
    rcases Option.isSome_iff_exists.mp hsome with ⟨tr, htr⟩
    rw [htr]
    rfl

theorem runTicks_inv (ticks : List TickInput) (st : StateMap) (id : String) (c : Nat)
    (hok : ∀ t ∈ ticks, exOk (t.env.createResp id) = true) (hinv : C1Inv id st c) :
    C1Inv id (runTicks st ticks).1 (c + countCreateIssues id (runTicks st ticks).2) := by
  induction ticks generalizing st c with
  | nil => simpa [runTicks, countCreateIssues] using hinv
  | cons t rest ih =>
    simp only [runTicks]
    rw [countCreateIssues_append, ← Nat.add_assoc]
    exact ih _ _ (fun t' ht' => hok t' (List.mem_cons_of_mem _ ht'))
      (tick_inv t.env st t.feed id c (hok t (List.mem_cons_self _ _)) hinv)

theorem tick_isSome_of_isSome (env : TickEnv) (st : StateMap)
    (feed : List (String × List Violation)) (id : String)
    (h : (lookupState st id).isSome = true) :
    (lookupState (checkAndProcessViolations env st feed).1 id).isSome = true := by
  unfold checkAndProcessViolations
  simp only []
  rw [cmv_lookup]
  have h1 := pfv_isSome_of_isSome env st (flattenFeed feed) id h
  rcases Option.isSome_iff_exists.mp h1 with ⟨tr, htr⟩
  rw [htr]
  rfl

theorem tick_createCall_not_mem (env : TickEnv) (st : StateMap)
    (feed : List (String × List Violation)) (id : String)
    (h : (lookupState st id).isSome = true) :
    Event.createCall id ∉ (checkAndProcessViolations env st feed).2 := by
  unfold checkAndProcessViolations
  simp only []
  intro hm
  rcases List.mem_append.mp hm with hm1 | hm1
  · exact pfv_createCall_not_mem env st (flattenFeed feed) id h hm1
  · exact cmv_createCall_not_mem _ _ _ _ hm1

theorem runTicks_isSome_of_isSome (ticks : List TickInput) (st : StateMap) (id : String)
    (h : (lookupState st id).isSome = true) :
    (lookupState (runTicks st ticks).1 id).isSome = true := by
  induction ticks generalizing st with
  | nil => exact h
  | cons t rest ih =>
    simp only [runTicks]
    exact ih _ (tick_isSome_of_isSome t.env st t.feed id h)

theorem runTicks_createCall_not_mem (ticks : List TickInput) (st : StateMap) (id : String)
    (h : (lookupState st id).isSome = true) :
    Event.createCall id ∉ (runTicks st ticks).2 := by
  induction ticks generalizing st with
  | nil => simp [runTicks]
  | cons t rest ih =>
    simp only [runTicks]
    intro hm
    rcases List.mem_append.mp hm with hm1 | hm1
    · exact tick_createCall_not_mem t.env st t.feed id h hm1
    · exact ih _ (tick_isSome_of_isSome t.env st t.feed id h) hm1

theorem tick_untouched_cancelled (env : TickEnv) (st : StateMap)
    (feed : List (String × List Violation)) (id : String) (tr : TrackedViolation)
    (h : lookupState st id = some tr) (hc : tr.status = "CANCELLED")
    (habs : ∀ v ∈ flattenFeed feed, v.id ≠ id) :
    lookupState (checkAndProcessViolations env st feed).1 id = some tr := by
  unfold checkAndProcessViolations
  simp only []
  rw [cmv_lookup, pfv_lookup_ne env st (flattenFeed feed) id habs, h]
  have : ¬((flattenFeed feed).map (fun v => v.id)).contains id = false ∨ True := Or.inr trivial
  simp only [Option.map_some']
  rw [if_neg]
  rintro ⟨_, ho⟩
  rw [hc] at ho
  exact absurd ho (by decide)

theorem runTicks_untouched_cancelled (ticks : List TickInput) (st : StateMap) (id : String)
    (tr : TrackedViolation) (h : lookupState st id = some tr) (hc : tr.status = "CANCELLED")
    (habs : ∀ t ∈ ticks, ∀ v ∈ flattenFeed t.feed, v.id ≠ id) :
    lookupState (runTicks st ticks).1 id = some tr := by
  induction ticks generalizing st with
  | nil => exact h
  | cons t rest ih =>
    simp only [runTicks]
    exact ih _
      (tick_untouched_cancelled t.env st t.feed id tr h hc (habs t (List.mem_cons_self _ _)))
      (fun t' ht' => habs t' (List.mem_cons_of_mem _ ht'))

theorem tick_none_of_createFails (env : TickEnv) (st : StateMap)
    (feed : List (String × List Violation)) (id : String)
    (hf : createFails env id) (h : lookupState st id = none) :
    lookupState (checkAndProcessViolations env st feed).1 id = none := by
  unfold checkAndProcessViolations
  simp only []
  rw [cmv_lookup, pfv_none_of_createFails env st (flattenFeed feed) id hf h]
  rfl

theorem tick_createCall_mem (env : TickEnv) (st : StateMap)
    (feed : List (String × List Violation)) (id : String)
    (h : lookupState st id = none) (hm : id ∈ (flattenFeed feed).map (fun v => v.id)) :
    Event.createCall id ∈ (checkAndProcessViolations env st feed).2 := by
  unfold checkAndProcessViolations
  simp only []
  exact List.mem_append_left _ (pfv_createCall_mem env st (flattenFeed feed) id h hm)

theorem pv_c10 (env : TickEnv) (st : StateMap) (v : Violation) (id : String)
    (htok : env.cfg.jiraToken = "") (h : lookupState st id = none) :
    lookupState (processViolation env st v).1 id = none ∧
    countCreateCalls id (processViolation env st v).2 = (if v.id = id then 1 else 0) := by
  by_cases hv : v.id = id
  · subst hv
    rw [pv_eq_create_fail env st v [] h (createJiraTicket_token_empty env v htok)]
    exact ⟨h, by simp [countCreateCalls]⟩
  · refine ⟨by rw [pv_lookup_ne env st v id hv]; exact h, ?_⟩
    rw [countCreateCalls_not_mem _ _ (pv_createCall_not_mem_ne env st v id hv), if_neg hv]

theorem pfv_c10 (env : TickEnv) (st : StateMap) (vs : List Violation) (id : String)
    (htok : env.cfg.jiraToken = "") (h : lookupState st id = none) :
    lookupState (processFetchedViolations env st vs).1 id = none ∧
    countCreateCalls id (processFetchedViolations env st vs).2 = countVio id vs := by
  induction vs generalizing st with
  | nil => exact ⟨h, rfl⟩
  | cons v rest ih =>
    simp only [processFetchedViolations]
    obtain ⟨h1, h2⟩ := pv_c10 env st v id htok h
    obtain ⟨h3, h4⟩ := ih _ h1
    refine ⟨h3, ?_⟩
    rw [countCreateCalls_append, h2, h4, countVio]

theorem tick_c10 (env : TickEnv) (st : StateMap) (feed : List (String × List Violation))
    (id : String) (htok : env.cfg.jiraToken = "") (h : lookupState st id = none) :
    lookupState (checkAndProcessViolations env st feed).1 id = none ∧
    countCreateCalls id (checkAndProcessViolations env st feed).2 =
      countVio id (flattenFeed feed) := by
  unfold checkAndProcessViolations
  simp only []
  obtain ⟨h1, h2⟩ := pfv_c10 env st (flattenFeed feed) id htok h
  constructor
  · rw [cmv_lookup, h1]; rfl
  · rw [countCreateCalls_append, h2,
        countCreateCalls_not_mem _ _ (cmv_createCall_not_mem _ _ _ _)]
    omega

theorem runTicks_c10 (ticks : List TickInput) (st : StateMap) (id : String)
    (htok : ∀ t ∈ ticks, t.env.cfg.jiraToken = "") (h : lookupState st id = none) :
    lookupState (runTicks st ticks).1 id = none ∧
    countCreateCalls id (runTicks st ticks).2 = totalOccurrences id ticks := by
  induction ticks generalizing st with
  | nil => exact ⟨h, rfl⟩
  | cons t rest ih =>
    simp only [runTicks]
    obtain ⟨h1, h2⟩ :=
      tick_c10 t.env st t.feed id (htok t (List.mem_cons_self _ _)) h
    obtain ⟨h3, h4⟩ := ih _ (fun t' ht' => htok t' (List.mem_cons_of_mem _ ht')) h1
    refine ⟨h3, ?_⟩
    rw [countCreateCalls_append, h2, h4, totalOccurrences]

/-- Claim C1: for every incident identifier, across any number of
reconciliation ticks in which creation attempts for it would succeed, at
most one issue-creation request is ever made for it; and once a state
entry with a ticket key exists for that identifier, no later tick invokes
ticket creation for it and the entry is never removed. -/
theorem C1_no_duplicate_tickets (ticks : List TickInput) (st : StateMap) (id : String)
    (hok : ∀ t ∈ ticks, exOk (t.env.createResp id) = true) :
    ((lookupState st id).isSome = true →
       Event.createCall id ∉ (runTicks st ticks).2 ∧
       (lookupState (runTicks st ticks).1 id).isSome = true) ∧
    countCreateIssues id (runTicks st ticks).2 ≤ 1 := by
  constructor
  · intro h
    exact ⟨runTicks_createCall_not_mem ticks st id h, runTicks_isSome_of_isSome ticks st id h⟩
  · have hbase : C1Inv id st 0 := by
      cases hl : lookupState st id with
      | none => exact Or.inl ⟨hl, rfl⟩
      | some tr => exact Or.inr ⟨by rw [hl]; rfl, by omega⟩
    have hfin := runTicks_inv ticks st id 0 hok hbase
    rcases hfin with ⟨_, h0⟩ | ⟨_, hc⟩ <;> omega

/-- Witness for claim C1: a two-tick schedule observing incident 300 twice,
starting from a state that already tracks it, makes no creation call. -/
theorem C1_witness :
    ((lookupState [("300", ⟨"T-1", "OPEN", 0⟩)] "300").isSome = true →
       Event.createCall "300" ∉ (runTicks [("300", ⟨"T-1", "OPEN", 0⟩)] ticksC1).2 ∧
       (lookupState (runTicks [("300", ⟨"T-1", "OPEN", 0⟩)] ticksC1).1 "300").isSome = true) ∧
    countCreateIssues "300" (runTicks [("300", ⟨"T-1", "OPEN", 0⟩)] ticksC1).2 ≤ 1 :=
  C1_no_duplicate_tickets ticksC1 [("300", ⟨"T-1", "OPEN", 0⟩)] "300"
    (by intro t ht; fin_cases ht <;> rfl)

/-- Counterexample to claim C2: a record whose stored status is CANCELLED
is set back to OPEN by the next tick when its incident identifier is
re-observed in the feed with status OPEN (the plain status-overwrite
branch of checkAndProcessViolations). -/
theorem C2_counterexample :
    lookupState stC2 "100" = some ⟨"T-1", "CANCELLED", 0⟩ ∧
    lookupState (checkAndProcessViolations envC2 stC2 feedC2).1 "100" =
      some ⟨"T-1", "OPEN", 5⟩ := by
  exact ⟨rfl, rfl⟩

/-- Claim C2 amended: once a record is CANCELLED it stays exactly as it is
through any ticks whose feeds do not mention its incident identifier; but
when the identifier is re-observed with status OPEN, the engine overwrites
the stored status back to OPEN (refreshing lastChecked) as a plain state
write with no gateway call and no ticket creation. -/
theorem C2_amended (ticks : List TickInput) (st : StateMap) (id : String)
    (tr : TrackedViolation) (env : TickEnv) (v : Violation)
    (h : lookupState st id = some tr) (hc : tr.status = "CANCELLED")
    (habs : ∀ t ∈ ticks, ∀ w ∈ flattenFeed t.feed, w.id ≠ id)
    (hv : v.id = id) (hopen : v.incidentStatus = "OPEN") :
    lookupState (runTicks st ticks).1 id = some tr ∧
    processViolation env st v =
      (setState st id { tr with status := "OPEN", lastChecked := env.now }, []) := by
  constructor
  · exact runTicks_untouched_cancelled ticks st id tr h hc habs
  · subst hv
    have h2 : ¬(tr.status = "OPEN" ∧ v.incidentStatus = "CANCELLED") := by
      rintro ⟨ha, _⟩
      rw [hc] at ha
      exact absurd ha (by decide)
    have h3 : tr.status ≠ v.incidentStatus := by
      rw [hc, hopen]
      decide
    rw [pv_eq_overwrite env st v tr h h2 h3, hopen]

/-- Witness for the amended claim C2: the CANCELLED record for incident 100
is untouched by a tick that only mentions incident 101, and a direct
re-observation of 100 with status OPEN plainly overwrites the status. -/
theorem C2_witness :
    lookupState (runTicks stC2 ticksC2).1 "100" = some ⟨"T-1", "CANCELLED", 0⟩ ∧
    processViolation envC2 stC2 ⟨"100", "OPEN"⟩ =
      (setState stC2 "100" ⟨"T-1", "OPEN", 5⟩, []) :=
  C2_amended ticksC2 stC2 "100" ⟨"T-1", "CANCELLED", 0⟩ envC2 ⟨"100", "OPEN"⟩ rfl rfl
    (by
      intro t ht
      simp only [ticksC2, List.mem_singleton] at ht
      subst ht
      intro w hw
      simp [flattenFeed] at hw
      subst hw
      decide)
    rfl rfl

/-- Counterexample to claim C3: with a poll interval of 1 and every tick
lasting 2, the setInterval timer (installed when the awaited initial tick
completes at time 2) starts tick 1 at time 3 and tick 2 at time 4, while
tick 1 only completes at time 5 — tick 2 is triggered while tick 1 is
still running, so a trigger is not driven by completion of the previous
tick. -/
theorem C3_counterexample : ticksOverlap 1 (fun _ => 2) 1 2 := by
  exact ⟨by decide, by decide⟩

/-- Claim C3 amended: the initial tick is awaited before the interval
timer is installed, so the initial tick never overlaps tick 1; but the
setInterval-driven ticks then fire at a fixed rate — tick k+1 starts
exactly one interval after tick k for k at least 1, regardless of those
ticks' durations — and consecutive setInterval ticks overlap precisely
when a tick runs longer than the poll interval, instead of the next
trigger being delayed to its completion. -/
theorem C3_amended (intervalMs : Nat) (dur : Nat → Nat) (k : Nat) (hk : 1 ≤ k) :
    tickStartTime intervalMs dur (k + 1) = tickStartTime intervalMs dur k + intervalMs ∧
    (ticksOverlap intervalMs dur k (k + 1) ↔ intervalMs < dur k) ∧
    ¬ ticksOverlap intervalMs dur 0 1 := by
  obtain ⟨j, rfl⟩ : ∃ j, k = j + 1 := ⟨k - 1, by omega⟩
  have h1 : ¬(j + 1 + 1 = 0) := by omega
  have h2 : ¬(j + 1 = 0) := by omega
  refine ⟨?_, ?_, ?_⟩
  · simp only [tickStartTime]
    rw [if_neg h1, if_neg h2, Nat.mul_add intervalMs (j + 1) 1, Nat.mul_one]
    generalize intervalMs * (j + 1) = a
    omega
  · simp only [ticksOverlap, tickEndTime, tickStartTime]
    rw [if_neg h1, if_neg h2, Nat.mul_add intervalMs (j + 1) 1, Nat.mul_one]
    generalize intervalMs * (j + 1) = a
    constructor
    · rintro ⟨_, h⟩
      omega
    · intro h
      exact ⟨by omega, by omega⟩
  · rintro ⟨_, h⟩
    have e1 : tickStartTime intervalMs dur 1 = dur 0 + intervalMs * 1 := rfl
    have e0 : tickEndTime intervalMs dur 0 = 0 + dur 0 := rfl
    rw [e1, e0] at h
    omega

/-- Witness for the amended claim C3 at interval 1 with every tick lasting
2: setInterval ticks 1 and 2 start one interval apart, they overlap since
the duration exceeds the interval, and the initial tick does not overlap
tick 1. -/
theorem C3_witness :
    tickStartTime 1 (fun _ => 2) (1 + 1) = tickStartTime 1 (fun _ => 2) 1 + 1 ∧
    (ticksOverlap 1 (fun _ => 2) 1 (1 + 1) ↔ 1 < 2) ∧
    ¬ ticksOverlap 1 (fun _ => 2) 0 1 :=
  C3_amended 1 (fun _ => 2) 1 (by decide)

/-- Claim C4: when ticket creation fails for a brand-new incident, the tick
attempts creation (createCall is in its trace) but adds no state entry for
the incident, and a subsequent tick observing the same incident attempts
creation again. -/
theorem C4_create_failure_retry (env1 env2 : TickEnv) (st : StateMap)
    (feed1 feed2 : List (String × List Violation)) (id : String)
    (h : lookupState st id = none) (hf : createFails env1 id)
    (h1 : id ∈ (flattenFeed feed1).map (fun v => v.id))
    (h2 : id ∈ (flattenFeed feed2).map (fun v => v.id)) :
    Event.createCall id ∈ (checkAndProcessViolations env1 st feed1).2 ∧
    lookupState (checkAndProcessViolations env1 st feed1).1 id = none ∧
    Event.createCall id ∈
      (checkAndProcessViolations env2 (checkAndProcessViolations env1 st feed1).1 feed2).2 := by
  refine ⟨tick_createCall_mem env1 st feed1 id h h1,
          tick_none_of_createFails env1 st feed1 id hf h,
          tick_createCall_mem env2 _ feed2 id
            (tick_none_of_createFails env1 st feed1 id hf h) h2⟩

/-- Witness for claim C4: incident 200 with a failing creation endpoint is
attempted, not recorded, and attempted again on the next tick. -/
theorem C4_witness :
    Event.createCall "200" ∈ (checkAndProcessViolations envC4 [] feedC4).2 ∧
    lookupState (checkAndProcessViolations envC4 [] feedC4).1 "200" = none ∧
    Event.createCall "200" ∈
      (checkAndProcessViolations envC4 (checkAndProcessViolations envC4 [] feedC4).1 feedC4).2 :=
  C4_create_failure_retry envC4 envC4 [] feedC4 feedC4 "200" rfl (Or.inr rfl)
    (by simp [feedC4, flattenFeed]) (by simp [feedC4, flattenFeed])

/-- Claim C5: a record that is OPEN after the fetch/update pass and whose
incident identifier is absent from the fully-merged set of fetched
identifiers is closed by the disappearance pass of the same tick: the
close gateway is invoked for its ticket key and its status becomes
CANCELLED; the hypothesis quantifies over the state as it stands after
the complete first pass, reflecting that the disappearance pass runs only
after the whole fetch/update pass. -/
theorem C5_disappearance_closure (env : TickEnv) (st : StateMap)
    (feed : List (String × List Violation)) (id : String) (tr : TrackedViolation)
    (h : lookupState (processFetchedViolations env st (flattenFeed feed)).1 id = some tr)
    (ho : tr.status = "OPEN")
    (habs : ((flattenFeed feed).map (fun v => v.id)).contains id = false) :
    lookupState (checkAndProcessViolations env st feed).1 id =
      some { tr with status := "CANCELLED" } ∧
    Event.closeCall tr.jiraKey ∈ (checkAndProcessViolations env st feed).2 := by
  unfold checkAndProcessViolations
  simp only []
  constructor
  · rw [cmv_lookup, h]
    simp only [Option.map_some']
    rw [if_pos ⟨habs, ho⟩]
  · exact List.mem_append_right _ (cmv_closeCall_mem env _ _ id tr h habs ho)

/-- Witness for claim C5: with an empty feed, the OPEN record for incident
100 is closed and its ticket transition is requested. -/
theorem C5_witness :
    lookupState (checkAndProcessViolations envC5 stC5 []).1 "100" =
      some ⟨"T-1", "CANCELLED", 0⟩ ∧
    Event.closeCall "T-1" ∈ (checkAndProcessViolations envC5 stC5 []).2 :=
  C5_disappearance_closure envC5 stC5 [] "100" ⟨"T-1", "OPEN", 0⟩ rfl rfl rfl

/-- Claim C6: a tracked OPEN record re-observed with status CANCELLED has
the close gateway invoked and its stored status set to CANCELLED; the
resulting state is the same for every tick environment, in particular it
does not depend on whether the gateway close call succeeds or fails. -/
theorem C6_close_unconditional (env : TickEnv) (st : StateMap) (v : Violation)
    (tr : TrackedViolation) (h : lookupState st v.id = some tr)
    (ho : tr.status = "OPEN") (hc : v.incidentStatus = "CANCELLED") :
    (processViolation env st v).1 = setState st v.id { tr with status := "CANCELLED" } ∧
    Event.closeCall tr.jiraKey ∈ (processViolation env st v).2 := by
  rw [pv_eq_close env st v tr h ho hc]
  exact ⟨rfl, List.mem_cons_self _ _⟩

/-- Witness for claim C6, using an environment whose close transition
fails: the record still becomes CANCELLED and the close is invoked. -/
theorem C6_witness :
    (processViolation envC6 stC6 vC6).1 = setState stC6 "100" ⟨"T-1", "CANCELLED", 2⟩ ∧
    Event.closeCall "T-1" ∈ (processViolation envC6 stC6 vC6).2 :=
  C6_close_unconditional envC6 stC6 vC6 ⟨"T-1", "OPEN", 2⟩ rfl rfl rfl

/-- Counterexample to claim C7: re-observing the OPEN record for incident
100 with unchanged status OPEN at clock 5 leaves the record completely
unchanged — lastChecked stays 0 and is not refreshed to the current
clock, contrary to the claim. -/
theorem C7_counterexample :
    envC7.now = 5 ∧
    processViolation envC7 stC7 vC7 = (stC7, []) ∧
    lookupState (processViolation envC7 stC7 vC7).1 "100" = some ⟨"T-1", "OPEN", 0⟩ := by
  exact ⟨rfl, rfl, rfl⟩

/-- Claim C7 amended: when a tracked record with stored status OPEN is
re-observed with status OPEN, the engine changes nothing at all — no
gateway call, no event, and no modification of any record, in particular
lastChecked is not refreshed. -/
theorem C7_amended (env : TickEnv) (st : StateMap) (v : Violation) (tr : TrackedViolation)
    (h : lookupState st v.id = some tr) (ho : tr.status = "OPEN")
    (hv : v.incidentStatus = "OPEN") :
    processViolation env st v = (st, []) :=
  pv_eq_same env st v tr h (by rw [ho, hv])

/-- Witness for the amended claim C7 at the concrete unchanged
re-observation. -/
theorem C7_witness : processViolation envC7 stC7 vC7 = (stC7, []) :=
  C7_amended envC7 stC7 vC7 ⟨"T-1", "OPEN", 0⟩ rfl rfl rfl

/-- Claim C8: the per-application fetch uses the primary endpoint result
when it succeeds, falls back to the secondary endpoint exactly when the
primary fails with status 404, propagates any other failure, and
normalizes the response across the four shapes in fixed priority order:
direct array, healthRuleViolations or violations wrapper, data wrapper,
and filtered problems array. -/
theorem C8_fetch_fallback_and_normalize :
    (∀ (a : AppEnv) (d : JVal), a.primary = .ok d → fetchAppRaw a = .ok d) ∧
    (∀ a : AppEnv, a.primary = .error (some 404) → fetchAppRaw a = a.secondary) ∧
    (∀ (a : AppEnv) (s : Option Nat), a.primary = .error s → s ≠ some 404 →
       fetchAppRaw a = .error s) ∧
    (∀ xs : List JVal, normalizeViolations (.jarr xs) = .jarr xs) ∧
    (∀ (fs : List (String × JVal)) (h : JVal), getFieldT fs "healthRuleViolations" = some h →
       normalizeViolations (.jobj fs) = h) ∧
    (∀ (fs : List (String × JVal)) (h : JVal), getFieldT fs "healthRuleViolations" = none →
       getFieldT fs "violations" = some h → normalizeViolations (.jobj fs) = h) ∧
    (∀ (fs : List (String × JVal)) (h : JVal), getFieldT fs "healthRuleViolations" = none →
       getFieldT fs "violations" = none → getFieldT fs "data" = some h →
       normalizeViolations (.jobj fs) = h) ∧
    (∀ (fs : List (String × JVal)) (ps : List JVal),
       getFieldT fs "healthRuleViolations" = none → getFieldT fs "violations" = none →
       getFieldT fs "data" = none → getField fs "problems" = some (.jarr ps) →
       normalizeViolations (.jobj fs) = .jarr (ps.filter isHealthProblem)) := by
  refine ⟨?_, ?_, ?_, ?_, ?_, ?_, ?_, ?_⟩
  · intro a d h
    unfold fetchAppRaw
    rw [h]
  · intro a h
    unfold fetchAppRaw
    rw [h]
    simp
  · intro a s h hs
    simp only [fetchAppRaw, h]
    rw [if_neg hs]
  · intro xs
    rfl
  · intro fs h h1
    simp [normalizeViolations, normalizeObj, h1]
  · intro fs h h1 h2
    simp [normalizeViolations, normalizeObj, h1, h2]
  · intro fs h h1 h2 h3
    simp [normalizeViolations, normalizeObj, h1, h2, h3]
  · intro fs ps h1 h2 h3 h4
    simp [normalizeViolations, normalizeObj, h1, h2, h3, h4]

/-- Witness for claim C8: a 404 primary falls back to the secondary, and a
problems-shaped object normalizes to the filtered problems array. -/
theorem C8_witness :
    fetchAppRaw appC8 = appC8.secondary ∧
    normalizeViolations (JVal.jobj fsC8) = JVal.jarr (psC8.filter isHealthProblem) :=
  ⟨C8_fetch_fallback_and_normalize.2.1 appC8 rfl,
   C8_fetch_fallback_and_normalize.2.2.2.2.2.2.2 fsC8 psC8 rfl rfl rfl rfl⟩

/-- Claim C9: a fetch failure for one application leaves its contribution
empty and removes it from the fetch result without affecting any other
application, so the subsequent reconciliation tick over the fetched data
is identical to the one without the failing application. -/
theorem C9_app_failure_isolated (xs ys : List AppEnv) (bad : AppEnv) (e : Option Nat)
    (h : fetchAppRaw bad = .error e) :
    fetchAppViolations bad = none ∧
    getHealthViolations (xs ++ bad :: ys) = getHealthViolations (xs ++ ys) ∧
    (∀ (env : TickEnv) (st : StateMap),
       fetchAndProcess env st (xs ++ bad :: ys) = fetchAndProcess env st (xs ++ ys)) := by
  have hb : fetchAppViolations bad = none := by
    unfold fetchAppViolations
    rw [h]
  have hg : getHealthViolations (xs ++ bad :: ys) = getHealthViolations (xs ++ ys) := by
    induction xs with
    | nil => simp [getHealthViolations, hb]
    | cons a rest ih =>
      cases hfa : fetchAppViolations a <;>
        simp [getHealthViolations, hfa, ih]
  exact ⟨hb, hg, fun env st => by unfold fetchAndProcess; rw [hg]⟩

/-- Witness for claim C9: the failing application contributes nothing and
the fetch and tick results match those without it. -/
theorem C9_witness :
    fetchAppViolations badC9 = none ∧
    getHealthViolations ([goodC9] ++ badC9 :: []) = getHealthViolations ([goodC9] ++ []) ∧
    (∀ (env : TickEnv) (st : StateMap),
       fetchAndProcess env st ([goodC9] ++ badC9 :: []) =
         fetchAndProcess env st ([goodC9] ++ [])) :=
  C9_app_failure_isolated [goodC9] [] badC9 none rfl

/-- Claim C10: with an unconfigured tracker token, createJiraTicket returns
null and updateJiraTicketStatus returns false, both without issuing any
network request; consequently an untracked incident never gains a state
entry and creation is re-attempted at every observation — the number of
creation calls equals the total number of observations across all ticks. -/
theorem C10_unconfigured_token (env : TickEnv) (v : Violation) (k : String)
    (ticks : List TickInput) (st : StateMap) (id : String)
    (htok : env.cfg.jiraToken = "") (htoks : ∀ t ∈ ticks, t.env.cfg.jiraToken = "")
    (h : lookupState st id = none) :
    createJiraTicket env v = (none, []) ∧
    updateJiraTicketStatus env k = (false, []) ∧
    lookupState (runTicks st ticks).1 id = none ∧
    countCreateCalls id (runTicks st ticks).2 = totalOccurrences id ticks := by
  obtain ⟨h1, h2⟩ := runTicks_c10 ticks st id htoks h
  exact ⟨createJiraTicket_token_empty env v htok,
         updateJiraTicketStatus_token_empty env k htok, h1, h2⟩

/-- Witness for claim C10: under an empty token, incident 200 observed on
two consecutive ticks is never recorded and is re-attempted both times. -/
theorem C10_witness :
    createJiraTicket envC10 vC10 = (none, []) ∧
    updateJiraTicketStatus envC10 "T-1" = (false, []) ∧
    lookupState (runTicks [] ticksC10).1 "200" = none ∧
    countCreateCalls "200" (runTicks [] ticksC10).2 = totalOccurrences "200" ticksC10 :=
  C10_unconfigured_token envC10 vC10 "T-1" ticksC10 [] "200" rfl
    (by intro t ht; fin_cases ht <;> rfl) rfl

end Monitor
